import Mathlib

/-!
Status-bar icon and notification commands (`macosx/tkMacOSXSysTray.c`)

A shallow embedding of the `TkStatusItem` class, of `MacSystrayObjCmd`
(`_systray create | modify | destroy`) and of `SysNotifyObjCmd`
(`_sysnotify title message`).

Conventions of the embedding.

* Pointers that may be `NULL`/`nil` are `Option`s.  An Objective-C message sent
  to a `nil` receiver does nothing; `send` below implements that rule.
* The argument vector `objv` is a list and `objc` is its length.  Reading
  `objv[i]` with `i >= objc` is a fault of the command (`Fault.missingArg`).
* Everything the file obtains from Tcl, Tk and Cocoa is a field of `Collab`;
  the theorems hold for every choice of these collaborators.
* The build is taken with `MAC_OS_X_VERSION_MAX_ALLOWED >= 101000` (the file
  does not compile otherwise) and with `DISABLE_NOTIFICATION_FRAMEWORK`
  defined, as line 43 of the source does.
* Calls that only have an effect outside the handle (reference counting,
  `Tk_FreeImage`, delivering a notification, evaluating a callback, reporting a
  background error) are recorded, in program order, as `Event`s.
-/

namespace TkMacOSXSysTray

/-! ## Data model -/

/-- A Tcl object: `ptr` is its address (its identity) and `str` is the string
that `Tcl_GetString` returns for it. -/
structure Tcl_Obj where
  ptr : Nat
  str : String
deriving DecidableEq

/-- An image handle returned by `Tk_GetImage`. -/
structure Tk_Image where
  id : Nat
deriving DecidableEq

/-- A native bitmap (`NSImage *`, when not `nil`). -/
structure NSImage where
  id : Nat
deriving DecidableEq

/-- A native string (`NSString *`, when not `nil`). -/
abbrev NSString := String

abbrev TCL_OK : Int := 0

abbrev TCL_ERROR : Int := 1

/-- The type of the current event, as far as `clickOnStatusItem` tells them apart. -/
inductive NSEventType where
  | LeftMouseUp
  | RightMouseUp
  | Other (code : Nat)
deriving DecidableEq

/-- Calls with an effect outside the handle, in program order. -/
inductive Event where
  | incrRefCount (o : Tcl_Obj)
  | decrRefCount (o : Tcl_Obj)
  | freeImage (img : Tk_Image)
  | deliverNotification (title : Option NSString) (detail : Option NSString)
  | evalObjEx (o : Tcl_Obj)
  | backgroundException (code : Int)
deriving DecidableEq

/-- The instance variables of `TkStatusItem` (lines 58-66) that the commands
write, together with the two properties of `statusItem.button` the setters
mirror them into. -/
structure TkStatusItem where
  icon : Option NSImage
  tooltip : Option NSString
  b1_callback : Option Tcl_Obj
  b3_callback : Option Tcl_Obj
  button_image : Option NSImage
  button_toolTip : Option NSString
deriving DecidableEq

/-- What this file can observe of an interpreter: the slot `*info` holding the
interpreter's status item (`NULL` until one is created) and the calls made so
far. -/
structure Interp where
  info : Option TkStatusItem
  trace : List Event
deriving DecidableEq

/-- One write to the interpreter's result. -/
inductive ResultWrite where
  | appendResult (s : String)
  | wrongNumArgs (objcSkip : Nat) (message : String)
  | leftByGetIndex
  | leftByGetImage
deriving DecidableEq

/-- A command's return: the Tcl completion code, the writes to the interpreter
result, and the interpreter afterwards. -/
structure CmdResult where
  code : Int
  result : List ResultWrite
  state : Interp
deriving DecidableEq

/-- Undefined behaviour of a command: it read `objv[index]` although the
argument vector has only `objc` entries. -/
inductive Fault where
  | missingArg (index : Nat) (objc : Nat)
deriving DecidableEq

/-- The collaborators: Tcl, Tk and Cocoa functions this file calls.
`Tcl_GetIndexFromObj o table` is `Tcl_GetIndexFromObjStruct` (`none` when it
fails), `Tk_GetImage` and the two string and image conversions return `none`
for `NULL`/`nil`, and `Tcl_EvalObjEx` runs a script, which may itself change
the interpreter. -/
structure Collab where
  macOSVersion : Int
  Tcl_GetIndexFromObj : Tcl_Obj → List String → Option Nat
  Tk_GetImage : String → Option Tk_Image
  Tk_SizeOfImage : Tk_Image → Int × Int
  TkMacOSXGetNSImageFromTkImage : Tk_Image → Int → Int → Option NSImage
  stringWithUTF8String : String → Option NSString
  Tcl_EvalObjEx : Tcl_Obj → Interp → Int × Interp

/-! ## `TkStatusItem` (lines 150-231) -/

/-- The method `init` (lines 152-164): both callbacks are `NULL`; `icon` and
`tooltip` are `nil`, as every instance variable is after `alloc`. -/
def TkStatusItem.init : TkStatusItem :=
  { icon := none, tooltip := none, b1_callback := none, b3_callback := none,
    button_image := none, button_toolTip := none }

/-- The method `setImagewithImage` (lines 166-171). -/
def TkStatusItem.setImagewithImage (image : Option NSImage) (self : TkStatusItem) :
    TkStatusItem × List Event :=
  ({ self with icon := image, button_image := image }, [])

/-- The method `setTextwithString` (lines 173-178). -/
def TkStatusItem.setTextwithString (string : Option NSString) (self : TkStatusItem) :
    TkStatusItem × List Event :=
  ({ self with tooltip := string, button_toolTip := string }, [])

/-- The method `setB1Callback` (lines 180-189): retain the new object, release
the stored one, store the new one. -/
def TkStatusItem.setB1Callback (obj : Option Tcl_Obj) (self : TkStatusItem) :
    TkStatusItem × List Event :=
  let retained : List Event :=
    match obj with
    | some o => [Event.incrRefCount o]
    | none => []
  let released : List Event :=
    match self.b1_callback with
    | some old => [Event.decrRefCount old]
    | none => []
  ({ self with b1_callback := obj }, retained ++ released)

/-- The method `setB3Callback` (lines 191-200). -/
def TkStatusItem.setB3Callback (obj : Option Tcl_Obj) (self : TkStatusItem) :
    TkStatusItem × List Event :=
  let retained : List Event :=
    match obj with
    | some o => [Event.incrRefCount o]
    | none => []
  let released : List Event :=
    match self.b3_callback with
    | some old => [Event.decrRefCount old]
    | none => []
  ({ self with b3_callback := obj }, retained ++ released)

/-- The method `clickOnStatusItem` (lines 202-218), run on the handle `self` of
the interpreter `s` for an event of type `eventType`.  Returns the interpreter
as the evaluated callback left it and the calls the method made itself. -/
def TkStatusItem.clickOnStatusItem (c : Collab) (eventType : NSEventType)
    (self : TkStatusItem) (s : Interp) : Interp × List Event :=
  match eventType, self.b1_callback with
  | NSEventType.LeftMouseUp, some b1 =>
    let r := c.Tcl_EvalObjEx b1 s
    if r.1 ≠ TCL_OK then
      (r.2, [Event.evalObjEx b1, Event.backgroundException r.1])
    else
      (r.2, [Event.evalObjEx b1])
  | _, _ =>
    match eventType, self.b3_callback with
    | NSEventType.RightMouseUp, some b3 =>
      let r := c.Tcl_EvalObjEx b3 s
      if r.1 ≠ TCL_OK then
        (r.2, [Event.evalObjEx b3, Event.backgroundException r.1])
      else
        (r.2, [Event.evalObjEx b3])
    | _, _ => (s, [])

/-- Sending a message to the interpreter's status item `*info`: a message to
`nil` does nothing, otherwise the method updates the handle in place and its
calls are appended to the trace. -/
def send (m : TkStatusItem → TkStatusItem × List Event) (s : Interp) : Interp :=
  match s.info with
  | none => s
  | some self => { info := some (m self).1, trace := s.trace ++ (m self).2 }

/-- Record calls made by the command itself. -/
def record (es : List Event) (s : Interp) : Interp :=
  { s with trace := s.trace ++ es }

/-! ## `MacSystrayObjCmd` (lines 412-595) -/

/-- The table `options` (lines 423-424). -/
def options : List String := ["create", "modify", "destroy"]

/-- The table `modifyOptions` (lines 426-427). -/
def modifyOptions : List String := ["image", "text", "b1_callback", "b3_callback"]

/-- Reading `objv[i]`. -/
def arg (objv : List Tcl_Obj) (i : Nat) : Except Fault Tcl_Obj :=
  match objv[i]? with
  | some o => Except.ok o
  | none => Except.error (Fault.missingArg i objv.length)

/-- The case `TRAY_CREATE` (lines 452-510). -/
def trayCreate (c : Collab) (s : Interp) (objv : List Tcl_Obj) : Except Fault CmdResult :=
  let objc := objv.length
  if objc < 3 ∨ objc > 6 then
    Except.ok ⟨TCL_ERROR,
      [ResultWrite.wrongNumArgs 1 "create image ?text? ?b1_callback? b3_callback?"], s⟩
  else
    match s.info with
    | some _ =>
      Except.ok ⟨TCL_ERROR,
        [ResultWrite.appendResult "Only one system tray icon supported per interpreter"], s⟩
    | none => do
      let s1 : Interp := { s with info := some TkStatusItem.init }
      let name ← arg objv 2
      match c.Tk_GetImage name.str with
      | none => Except.ok ⟨TCL_ERROR, [ResultWrite.leftByGetImage], s1⟩
      | some tk_image =>
        let width := (c.Tk_SizeOfImage tk_image).1
        let height := (c.Tk_SizeOfImage tk_image).2
        let s2 : Interp :=
          if width ≠ 0 ∧ height ≠ 0 then
            record [Event.freeImage tk_image]
              (send (TkStatusItem.setImagewithImage
                (c.TkMacOSXGetNSImageFromTkImage tk_image width height)) s1)
          else s1
        let text ← arg objv 3
        match c.stringWithUTF8String text.str with
        | none =>
          Except.ok ⟨TCL_ERROR,
            [ResultWrite.appendResult " unable to set tooltip for systray icon"], s2⟩
        | some tooltip =>
          let s3 := send (TkStatusItem.setTextwithString (some tooltip)) s2
          let b1 ← if objc > 4 then (arg objv 4).map some else Except.ok none
          let s4 := send (TkStatusItem.setB1Callback b1) s3
          let b3 ← if objc > 5 then (arg objv 5).map some else Except.ok none
          let s5 := send (TkStatusItem.setB3Callback b3) s4
          Except.ok ⟨TCL_OK, [], s5⟩

/-- The case `TRAY_MODIFY` (lines 511-580). -/
def trayModify (c : Collab) (s : Interp) (objv : List Tcl_Obj) : Except Fault CmdResult :=
  let objc := objv.length
  if objc ≠ 4 then
    Except.ok ⟨TCL_ERROR, [ResultWrite.wrongNumArgs 1 "modify object item"], s⟩
  else do
    let field ← arg objv 2
    match c.Tcl_GetIndexFromObj field modifyOptions with
    | none => Except.ok ⟨TCL_ERROR, [ResultWrite.leftByGetIndex], s⟩
    | some 0 =>
      let name ← arg objv 3
      match c.Tk_GetImage name.str with
      | none =>
        Except.ok ⟨TCL_ERROR,
          [ResultWrite.leftByGetImage,
           ResultWrite.appendResult " unable to obtain image for systray icon"], s⟩
      | some tk_image =>
        let width := (c.Tk_SizeOfImage tk_image).1
        let height := (c.Tk_SizeOfImage tk_image).2
        let s1 : Interp :=
          if width ≠ 0 ∧ height ≠ 0 then
            send (TkStatusItem.setImagewithImage
              (c.TkMacOSXGetNSImageFromTkImage tk_image width height)) s
          else s
        Except.ok ⟨TCL_OK, [], record [Event.freeImage tk_image] s1⟩
    | some 1 =>
      let text ← arg objv 3
      match c.stringWithUTF8String text.str with
      | none =>
        Except.ok ⟨TCL_ERROR,
          [ResultWrite.appendResult "unable to set tooltip for systray icon"], s⟩
      | some tooltip =>
        Except.ok ⟨TCL_OK, [], send (TkStatusItem.setTextwithString (some tooltip)) s⟩
    | some 2 =>
      let obj ← arg objv 3
      Except.ok ⟨TCL_OK, [], send (TkStatusItem.setB1Callback (some obj)) s⟩
    | some 3 =>
      let obj ← arg objv 3
      Except.ok ⟨TCL_OK, [], send (TkStatusItem.setB3Callback (some obj)) s⟩
    | some _ => Except.ok ⟨TCL_OK, [], s⟩

/-- The case `TRAY_DESTROY` (lines 582-589). -/
def trayDestroy (s : Interp) : Except Fault CmdResult :=
  let s1 := send (TkStatusItem.setImagewithImage none) s
  let s2 := send (TkStatusItem.setTextwithString none) s1
  let s3 := send (TkStatusItem.setB1Callback none) s2
  let s4 := send (TkStatusItem.setB3Callback none) s3
  Except.ok ⟨TCL_OK, [], s4⟩

/-- The command `_systray` (lines 412-595); `objv[0]` is the command name. -/
def MacSystrayObjCmd (c : Collab) (s : Interp) (objv : List Tcl_Obj) :
    Except Fault CmdResult :=
  let objc := objv.length
  if c.macOSVersion < 101000 then
    Except.ok ⟨TCL_OK,
      [ResultWrite.appendResult
        "StatusItem icons not supported on macOS versions lower than 10.10"], s⟩
  else if objc < 2 then
    Except.ok ⟨TCL_ERROR, [ResultWrite.wrongNumArgs 1 "create | modify | destroy"], s⟩
  else do
    let verb ← arg objv 1
    match c.Tcl_GetIndexFromObj verb options with
    | none => Except.ok ⟨TCL_ERROR, [ResultWrite.leftByGetIndex], s⟩
    | some 0 => trayCreate c s objv
    | some 1 => trayModify c s objv
    | some 2 => trayDestroy s
    | some _ => Except.ok ⟨TCL_OK, [], s⟩

/-! ## `SysNotifyObjCmd` (lines 617-643) -/

/-- The method `postNotificationWithTitle:message:` of `TkUserNotifier` (lines
241-306) with `DISABLE_NOTIFICATION_FRAMEWORK` defined: the notification goes
to the `NSUserNotificationCenter`.  The receiver `notifier` is not `nil`:
`MacSystrayInit` creates it before it creates the commands. -/
def postNotificationWithTitle (title : Option NSString) (detail : Option NSString)
    (s : Interp) : Interp :=
  record [Event.deliverNotification title detail] s

/-- The command `_sysnotify` (lines 617-643). -/
def SysNotifyObjCmd (c : Collab) (s : Interp) (objv : List Tcl_Obj) :
    Except Fault CmdResult :=
  let objc := objv.length
  if objc < 3 then
    Except.ok ⟨TCL_ERROR, [ResultWrite.wrongNumArgs 1 "title message"], s⟩
  else if c.macOSVersion < 101000 then
    Except.ok ⟨TCL_OK,
      [ResultWrite.appendResult
        "Notifications not supported on macOS versions lower than 10.10"], s⟩
  else do
    let t ← arg objv 1
    let m ← arg objv 2
    let title := c.stringWithUTF8String t.str
    let message := c.stringWithUTF8String m.str
    Except.ok ⟨TCL_OK, [], postNotificationWithTitle title message s⟩

/-! ## Sample collaborators and inputs -/

/-- A stand-in for `Tcl_GetIndexFromObjStruct` with `flags = 0`: the index of
the entry equal to `key`, else that of the only entry `key` abbreviates (a
non-empty `key`), else failure. -/
def lookupIndex (key : String) (table : List String) : Option Nat :=
  match table.indexOf? key with
  | some i => some i
  | none =>
    match (List.range table.length).filter
        (fun i => key.toList.isPrefixOf (table.getD i "").toList) with
    | [i] => if key = "" then none else some i
    | _ => none

/-- Sample collaborators on a supported system: the image `icon` is 16 by 16,
the image `blank` is 0 by 0, no other image exists; the string `bad` has no
native conversion; the script `fail` ends with `TCL_ERROR`. -/
def sampleCollab : Collab :=
  { macOSVersion := 101500,
    Tcl_GetIndexFromObj := fun o table => lookupIndex o.str table,
    Tk_GetImage := fun name =>
      if name = "icon" then some ⟨1⟩ else if name = "blank" then some ⟨2⟩ else none,
    Tk_SizeOfImage := fun img => if img.id = 1 then (16, 16) else (0, 0),
    TkMacOSXGetNSImageFromTkImage := fun img _ _ => some ⟨img.id⟩,
    stringWithUTF8String := fun str => if str = "bad" then none else some str,
    Tcl_EvalObjEx := fun o s => (if o.str = "fail" then TCL_ERROR else TCL_OK, s) }

/-- The sample collaborators on macOS 10.9. -/
def oldCollab : Collab := { sampleCollab with macOSVersion := 100900 }

/-- An interpreter in which `_systray` has not run yet. -/
def freshInterp : Interp := { info := none, trace := [] }

/-- An interpreter whose status item shows an icon and a tooltip and holds a
button-1 callback. -/
def busyInterp : Interp :=
  { info := some { icon := some ⟨7⟩, tooltip := some "seven",
                   b1_callback := some ⟨70, "puts seven"⟩, b3_callback := none,
                   button_image := some ⟨7⟩, button_toolTip := some "seven" },
    trace := [Event.incrRefCount ⟨70, "puts seven"⟩] }

/-- Build an argument vector from words; the i-th object has address `100 + i`. -/
def words (ws : List String) : List Tcl_Obj :=
  (List.range ws.length).map (fun i => ⟨100 + i, ws.getD i ""⟩)

/-- The duplicate-icon message of `create` (line 463). -/
def duplicateIconMessage : String := "Only one system tray icon supported per interpreter"

/-- The usage message of `create` (line 455). -/
def createUsage : String := "create image ?text? ?b1_callback? b3_callback?"

/-- The usage message of `_sysnotify` (line 624). -/
def notifyUsage : String := "title message"

/-- The message of `_systray` on a system older than macOS 10.10 (line 433). -/
def systrayUnsupported : String :=
  "StatusItem icons not supported on macOS versions lower than 10.10"

/-- The message of `_sysnotify` on a system older than macOS 10.10 (line 630). -/
def sysnotifyUnsupported : String :=
  "Notifications not supported on macOS versions lower than 10.10"

/-! ## Reference counting of the callback objects -/

/-- A call of one of the two callback setters. -/
inductive SetterCall where
  | setB1Callback (obj : Option Tcl_Obj)
  | setB3Callback (obj : Option Tcl_Obj)
deriving DecidableEq

/-- Run one setter call on a handle, appending its calls to the trace. -/
def runSetter (st : TkStatusItem × List Event) (call : SetterCall) :
    TkStatusItem × List Event :=
  match call with
  | SetterCall.setB1Callback obj =>
    ((st.1.setB1Callback obj).1, st.2 ++ (st.1.setB1Callback obj).2)
  | SetterCall.setB3Callback obj =>
    ((st.1.setB3Callback obj).1, st.2 ++ (st.1.setB3Callback obj).2)

/-- Run a sequence of setter calls, first call first. -/
def runSetters (calls : List SetterCall) (st : TkStatusItem × List Event) :
    TkStatusItem × List Event :=
  calls.foldl runSetter st

/-- Number of `Tcl_IncrRefCount(o)` calls in a trace. -/
def retains (o : Tcl_Obj) (es : List Event) : Nat :=
  es.count (Event.incrRefCount o)

/-- Number of `Tcl_DecrRefCount(o)` calls in a trace. -/
def releases (o : Tcl_Obj) (es : List Event) : Nat :=
  es.count (Event.decrRefCount o)

/-- Retains minus releases of `o` in a trace: the change of its reference count. -/
def refBalance (o : Tcl_Obj) (es : List Event) : Int :=
  (retains o es : Int) - (releases o es : Int)

/-- Number of the handle's two callback slots that hold `o`. -/
def slotsHolding (o : Tcl_Obj) (h : TkStatusItem) : Nat :=
  (if h.b1_callback = some o then 1 else 0) + (if h.b3_callback = some o then 1 else 0)

/-- Whether a recorded call is the evaluation of a callback. -/
def Event.isEval : Event → Bool
  | Event.evalObjEx _ => true
  | _ => false

/-! ## Sequences of `_systray` invocations -/

/-- Run `_systray` invocations one after the other on an interpreter, first
invocation first; each element is the argument vector of one invocation.  A
fault of an invocation ends the run. -/
def runSystray (c : Collab) : List (List Tcl_Obj) → Interp → Except Fault Interp
  | [], s => Except.ok s
  | objv :: rest, s =>
    match MacSystrayObjCmd c s objv with
    | Except.ok r => runSystray c rest r.state
    | Except.error f => Except.error f

/-! ## Theorems -/

/-- C1, as stated, fails: `_systray create` without further arguments, on a
supported system and on an interpreter that already has a status item,
resolves to the sub-verb `create` and fails, but with the usage message of the
argument-count check, not with the duplicate-icon message. -/
theorem C1_create_duplicate_counterexample :
    ¬ (sampleCollab.macOSVersion < 101000) ∧
    busyInterp.info ≠ none ∧
    (words ["_systray", "create"])[1]? = some ⟨101, "create"⟩ ∧
    sampleCollab.Tcl_GetIndexFromObj ⟨101, "create"⟩ options = some 0 ∧
    MacSystrayObjCmd sampleCollab busyInterp (words ["_systray", "create"]) =
      Except.ok ⟨TCL_ERROR, [ResultWrite.wrongNumArgs 1 createUsage], busyInterp⟩ ∧
    [ResultWrite.wrongNumArgs 1 createUsage] ≠
      [ResultWrite.appendResult duplicateIconMessage] := by
  refine ⟨by decide, by decide, rfl, rfl, rfl, by decide⟩

/-- C1 (amended): on a supported system, every `_systray create ...` invocation
on an interpreter that already has a status item fails with `TCL_ERROR` and
leaves the interpreter (the handle with its icon, tooltip and two callbacks,
and the trace of calls) unchanged; the message is the duplicate-icon message
when the argument count is accepted (`3 <= objc <= 6`) and the usage message of
`create` otherwise. -/
theorem C1_create_duplicate (c : Collab) (s : Interp) (objv : List Tcl_Obj)
    (verb : Tcl_Obj) (h : TkStatusItem)
    (hver : ¬ (c.macOSVersion < 101000))
    (hverb : objv[1]? = some verb)
    (hcreate : c.Tcl_GetIndexFromObj verb options = some 0)
    (hinfo : s.info = some h) :
    ∃ r, MacSystrayObjCmd c s objv = Except.ok r ∧ r.code = TCL_ERROR ∧ r.state = s ∧
      (3 ≤ objv.length ∧ objv.length ≤ 6 →
        r.result = [ResultWrite.appendResult duplicateIconMessage]) ∧
      (¬ (3 ≤ objv.length ∧ objv.length ≤ 6) →
        r.result = [ResultWrite.wrongNumArgs 1 createUsage]) := by
  have hlen : ¬ (objv.length < 2) := by
    intro hlt
    have := List.getElem?_eq_none (l := objv) (n := 1) (by omega)
    simp [this] at hverb
  by_cases hc : objv.length < 3 ∨ objv.length > 6
  · refine ⟨⟨TCL_ERROR, [ResultWrite.wrongNumArgs 1 createUsage], s⟩, ?_, rfl, rfl, ?_, ?_⟩
    · simp [MacSystrayObjCmd, hver, hlen, arg, hverb, hcreate, trayCreate, hc, createUsage,
        bind, Except.bind]
    · intro h3; omega
    · intro _; rfl
  · refine ⟨⟨TCL_ERROR, [ResultWrite.appendResult duplicateIconMessage], s⟩, ?_, rfl, rfl, ?_, ?_⟩
    · simp [MacSystrayObjCmd, hver, hlen, arg, hverb, hcreate, trayCreate, hc, hinfo,
        duplicateIconMessage, bind, Except.bind]
    · intro _; rfl
    · intro h3; exact absurd (by omega) h3

/-- C1 (amended), at a concrete input: `_systray create icon tip` on an
interpreter that already shows an icon. -/
theorem C1_create_duplicate_witness :
    ∃ r, MacSystrayObjCmd sampleCollab busyInterp (words ["_systray", "create", "icon", "tip"])
        = Except.ok r ∧ r.code = TCL_ERROR ∧ r.state = busyInterp ∧
      (3 ≤ (words ["_systray", "create", "icon", "tip"]).length ∧
        (words ["_systray", "create", "icon", "tip"]).length ≤ 6 →
        r.result = [ResultWrite.appendResult duplicateIconMessage]) ∧
      (¬ (3 ≤ (words ["_systray", "create", "icon", "tip"]).length ∧
        (words ["_systray", "create", "icon", "tip"]).length ≤ 6) →
        r.result = [ResultWrite.wrongNumArgs 1 createUsage]) :=
  C1_create_duplicate sampleCollab busyInterp (words ["_systray", "create", "icon", "tip"])
    ⟨101, "create"⟩ _ (by decide) rfl rfl rfl

/-- C2: on a supported system, `_systray create image text ?b1? ?b3?` on an
interpreter without a status item, with an image that loads and has non-zero
width and height and a tooltip text that converts to a native string, returns
`TCL_OK`; afterwards the interpreter has a handle whose icon is the converted
image, whose tooltip is the converted text, whose button-1 callback is
`objv[4]` if given and none otherwise, and whose button-3 callback is `objv[5]`
if given and none otherwise. -/
theorem C2_create_sets_fields (c : Collab) (s : Interp) (objv : List Tcl_Obj)
    (verb name text : Tcl_Obj) (img : Tk_Image) (tip : NSString)
    (hver : ¬ (c.macOSVersion < 101000))
    (hlen4 : 4 ≤ objv.length) (hlen6 : objv.length ≤ 6)
    (hverb : objv[1]? = some verb)
    (hcreate : c.Tcl_GetIndexFromObj verb options = some 0)
    (hinfo : s.info = none)
    (hname : objv[2]? = some name)
    (himg : c.Tk_GetImage name.str = some img)
    (hwidth : (c.Tk_SizeOfImage img).1 ≠ 0)
    (hheight : (c.Tk_SizeOfImage img).2 ≠ 0)
    (htext : objv[3]? = some text)
    (htip : c.stringWithUTF8String text.str = some tip) :
    ∃ r h, MacSystrayObjCmd c s objv = Except.ok r ∧ r.code = TCL_OK ∧
      r.state.info = some h ∧
      h.icon = c.TkMacOSXGetNSImageFromTkImage img (c.Tk_SizeOfImage img).1
        (c.Tk_SizeOfImage img).2 ∧
      h.tooltip = some tip ∧
      h.b1_callback = objv[4]? ∧
      h.b3_callback = objv[5]? := by
  rcases objv with _ | ⟨o0, _ | ⟨o1, _ | ⟨o2, _ | ⟨o3, rest⟩⟩⟩⟩
  · simp at hlen4
  · simp at hlen4
  · simp at hlen4
  · simp at hlen4
  · simp only [List.getElem?_cons_succ, List.getElem?_cons_zero, Option.some.injEq] at hverb hname htext
    subst hverb hname htext
    rcases rest with _ | ⟨o4, _ | ⟨o5, _ | ⟨o6, rest⟩⟩⟩
    · simp [MacSystrayObjCmd, trayCreate, arg, hver, hcreate, hinfo, himg, hwidth, hheight,
        htip, send, record, bind, Except.bind, TkStatusItem.init,
        TkStatusItem.setImagewithImage, TkStatusItem.setTextwithString,
        TkStatusItem.setB1Callback, TkStatusItem.setB3Callback]
    · simp [MacSystrayObjCmd, trayCreate, arg, hver, hcreate, hinfo, himg, hwidth, hheight,
        htip, send, record, bind, Except.bind, Except.map, TkStatusItem.init,
        TkStatusItem.setImagewithImage, TkStatusItem.setTextwithString,
        TkStatusItem.setB1Callback, TkStatusItem.setB3Callback]
    · simp [MacSystrayObjCmd, trayCreate, arg, hver, hcreate, hinfo, himg, hwidth, hheight,
        htip, send, record, bind, Except.bind, Except.map, TkStatusItem.init,
        TkStatusItem.setImagewithImage, TkStatusItem.setTextwithString,
        TkStatusItem.setB1Callback, TkStatusItem.setB3Callback]
    · simp at hlen6

/-- C2 at a concrete input: `_systray create icon tip cb1` on a fresh interpreter. -/
theorem C2_create_sets_fields_witness :
    ∃ r h, MacSystrayObjCmd sampleCollab freshInterp
        (words ["_systray", "create", "icon", "tip", "cb1"]) = Except.ok r ∧
      r.code = TCL_OK ∧ r.state.info = some h ∧
      h.icon = sampleCollab.TkMacOSXGetNSImageFromTkImage ⟨1⟩
        (sampleCollab.Tk_SizeOfImage ⟨1⟩).1 (sampleCollab.Tk_SizeOfImage ⟨1⟩).2 ∧
      h.tooltip = some "tip" ∧
      h.b1_callback = (words ["_systray", "create", "icon", "tip", "cb1"])[4]? ∧
      h.b3_callback = (words ["_systray", "create", "icon", "tip", "cb1"])[5]? :=
  C2_create_sets_fields sampleCollab freshInterp
    (words ["_systray", "create", "icon", "tip", "cb1"])
    ⟨101, "create"⟩ ⟨102, "icon"⟩ ⟨103, "tip"⟩ ⟨1⟩ "tip"
    (by decide) (by decide) (by decide) rfl rfl rfl rfl rfl (by decide) (by decide) rfl rfl

/-- Whatever the collaborators: on a supported system, `_systray create image`
with no further argument, on an interpreter without a status item and with an
image that loads, reads `objv[3]` of a three-entry argument vector. -/
theorem trayCreate_three_words (c : Collab) (s : Interp) (o0 verb name : Tcl_Obj)
    (img : Tk_Image)
    (hver : ¬ (c.macOSVersion < 101000))
    (hcreate : c.Tcl_GetIndexFromObj verb options = some 0)
    (hinfo : s.info = none)
    (himg : c.Tk_GetImage name.str = some img) :
    MacSystrayObjCmd c s [o0, verb, name] = Except.error (Fault.missingArg 3 3) := by
  simp [MacSystrayObjCmd, trayCreate, arg, hver, hcreate, hinfo, himg, bind, Except.bind]

/-- C3 fails on the code: `_systray create icon` has three words, which the
argument-count check accepts (`3 <= objc <= 6`); on a fresh interpreter and with
an image that loads, the command then reads `objv[3]` for the tooltip, an index
that is not below `objc = 3`, instead of yielding ok or an error string. -/
theorem C3_create_reads_missing_tooltip :
    (words ["_systray", "create", "icon"]).length = 3 ∧
    ¬ (sampleCollab.macOSVersion < 101000) ∧
    freshInterp.info = none ∧
    sampleCollab.Tcl_GetIndexFromObj ⟨101, "create"⟩ options = some 0 ∧
    sampleCollab.Tk_GetImage "icon" = some ⟨1⟩ ∧
    MacSystrayObjCmd sampleCollab freshInterp (words ["_systray", "create", "icon"]) =
      Except.error (Fault.missingArg 3 3) := by
  refine ⟨rfl, by decide, rfl, rfl, rfl, rfl⟩

/-- C4, as stated, fails: `_systray create nosuch tip` on a fresh interpreter,
where no image `nosuch` exists, fails with `TCL_ERROR`, but the interpreter has
a handle afterwards, and a following `_systray create icon tip` with a good
image fails with the duplicate-icon message. -/
theorem C4_create_bad_image_counterexample :
    freshInterp.info = none ∧
    sampleCollab.Tk_GetImage "nosuch" = none ∧
    MacSystrayObjCmd sampleCollab freshInterp (words ["_systray", "create", "nosuch", "tip"]) =
      Except.ok ⟨TCL_ERROR, [ResultWrite.leftByGetImage],
        { info := some TkStatusItem.init, trace := [] }⟩ ∧
    ({ info := some TkStatusItem.init, trace := [] } : Interp).info ≠ none ∧
    MacSystrayObjCmd sampleCollab { info := some TkStatusItem.init, trace := [] }
        (words ["_systray", "create", "icon", "tip"]) =
      Except.ok ⟨TCL_ERROR, [ResultWrite.appendResult duplicateIconMessage],
        { info := some TkStatusItem.init, trace := [] }⟩ := by
  refine ⟨rfl, rfl, rfl, by decide, rfl⟩

/-- C4 (amended): on a supported system, a `_systray create` invocation with an
accepted argument count on an interpreter without a status item, whose image
cannot be loaded, fails with `TCL_ERROR` and the message left by the image
loader; no icon, tooltip or callback is set and no call is recorded, but the
newly allocated, empty handle stays in the interpreter's slot.  A following
`destroy` returns `TCL_OK` and changes nothing. -/
theorem C4_create_bad_image (c : Collab) (s : Interp) (objv dv : List Tcl_Obj)
    (verb name dverb : Tcl_Obj)
    (hver : ¬ (c.macOSVersion < 101000))
    (hlen6 : objv.length ≤ 6)
    (hverb : objv[1]? = some verb)
    (hcreate : c.Tcl_GetIndexFromObj verb options = some 0)
    (hinfo : s.info = none)
    (hname : objv[2]? = some name)
    (himg : c.Tk_GetImage name.str = none)
    (hdverb : dv[1]? = some dverb)
    (hdestroy : c.Tcl_GetIndexFromObj dverb options = some 2) :
    MacSystrayObjCmd c s objv =
      Except.ok ⟨TCL_ERROR, [ResultWrite.leftByGetImage],
        { info := some TkStatusItem.init, trace := s.trace }⟩ ∧
    TkStatusItem.init.icon = none ∧ TkStatusItem.init.tooltip = none ∧
    TkStatusItem.init.b1_callback = none ∧ TkStatusItem.init.b3_callback = none ∧
    MacSystrayObjCmd c { info := some TkStatusItem.init, trace := s.trace } dv =
      Except.ok ⟨TCL_OK, [], { info := some TkStatusItem.init, trace := s.trace }⟩ := by
  have hd : ¬ (dv.length < 2) := by
    intro hlt
    have := List.getElem?_eq_none (l := dv) (n := 1) (by omega)
    simp [this] at hdverb
  refine ⟨?_, rfl, rfl, rfl, rfl, ?_⟩
  · rcases objv with _ | ⟨o0, _ | ⟨o1, _ | ⟨o2, rest⟩⟩⟩
    · simp at hverb
    · simp at hverb
    · simp at hname
    · simp only [List.getElem?_cons_succ, List.getElem?_cons_zero, Option.some.injEq]
        at hverb hname
      subst hverb hname
      have h6 : ¬ (rest.length + 1 + 1 + 1 > 6) := by
        simp only [List.length_cons] at hlen6
        omega
      have h2 : ¬ (rest.length + 1 + 1 + 1 < 2) := by omega
      have h3 : ¬ (rest.length + 1 + 1 + 1 < 3) := by omega
      simp [MacSystrayObjCmd, trayCreate, arg, hver, hcreate, hinfo, himg, h6, h2, h3,
        bind, Except.bind]
  · simp [MacSystrayObjCmd, trayDestroy, arg, hver, hd, hdverb, hdestroy, send,
      bind, Except.bind, TkStatusItem.init, TkStatusItem.setImagewithImage,
      TkStatusItem.setTextwithString, TkStatusItem.setB1Callback,
      TkStatusItem.setB3Callback]

/-- C4 (amended) at a concrete input: `_systray create nosuch tip`, then
`_systray destroy`, on a fresh interpreter. -/
theorem C4_create_bad_image_witness :
    MacSystrayObjCmd sampleCollab freshInterp (words ["_systray", "create", "nosuch", "tip"]) =
      Except.ok ⟨TCL_ERROR, [ResultWrite.leftByGetImage],
        { info := some TkStatusItem.init, trace := freshInterp.trace }⟩ ∧
    TkStatusItem.init.icon = none ∧ TkStatusItem.init.tooltip = none ∧
    TkStatusItem.init.b1_callback = none ∧ TkStatusItem.init.b3_callback = none ∧
    MacSystrayObjCmd sampleCollab { info := some TkStatusItem.init, trace := freshInterp.trace }
        (words ["_systray", "destroy"]) =
      Except.ok ⟨TCL_OK, [], { info := some TkStatusItem.init, trace := freshInterp.trace }⟩ :=
  C4_create_bad_image sampleCollab freshInterp (words ["_systray", "create", "nosuch", "tip"])
    (words ["_systray", "destroy"]) ⟨101, "create"⟩ ⟨102, "nosuch"⟩ ⟨101, "destroy"⟩
    (by decide) (by decide) rfl rfl rfl rfl rfl rfl rfl

/-- C5, as stated, fails: `_sysnotify T M extra` has three arguments after the
command name, yet on a supported system it returns `TCL_OK` and posts a
notification made from the first two. -/
theorem C5_sysnotify_extra_args_counterexample :
    (words ["_sysnotify", "T", "M", "extra"]).length - 1 ≠ 2 ∧
    ¬ (sampleCollab.macOSVersion < 101000) ∧
    SysNotifyObjCmd sampleCollab freshInterp (words ["_sysnotify", "T", "M", "extra"]) =
      Except.ok ⟨TCL_OK, [],
        { info := none, trace := [Event.deliverNotification (some "T") (some "M")] }⟩ := by
  refine ⟨by decide, by decide, rfl⟩

/-- C5 (amended): on a supported system `_sysnotify` requires at least two
arguments.  With fewer than two arguments after the command name it fails with
the usage error and posts nothing; with two or more it returns `TCL_OK` and
posts exactly one notification, whose title and message are the conversions of
the first two arguments, whatever follows them. -/
theorem C5_sysnotify_arg_count (c : Collab) (s : Interp) (objv : List Tcl_Obj)
    (hver : ¬ (c.macOSVersion < 101000)) :
    (objv.length < 3 →
      SysNotifyObjCmd c s objv =
        Except.ok ⟨TCL_ERROR, [ResultWrite.wrongNumArgs 1 notifyUsage], s⟩) ∧
    (3 ≤ objv.length →
      ∃ t m, objv[1]? = some t ∧ objv[2]? = some m ∧
        SysNotifyObjCmd c s objv =
          Except.ok ⟨TCL_OK, [],
            { info := s.info,
              trace := s.trace ++ [Event.deliverNotification
                (c.stringWithUTF8String t.str) (c.stringWithUTF8String m.str)] }⟩) := by
  constructor
  · intro hlt
    simp [SysNotifyObjCmd, hlt, notifyUsage]
  · intro hge
    rcases objv with _ | ⟨o0, _ | ⟨o1, _ | ⟨o2, rest⟩⟩⟩
    · simp at hge
    · simp at hge
    · simp at hge
    · refine ⟨o1, o2, by simp, by simp, ?_⟩
      simp [SysNotifyObjCmd, hver, arg, postNotificationWithTitle, record, bind, Except.bind]

/-- C5 (amended) at concrete inputs: `_sysnotify T` and `_sysnotify T M`. -/
theorem C5_sysnotify_arg_count_witness :
    SysNotifyObjCmd sampleCollab freshInterp (words ["_sysnotify", "T"]) =
      Except.ok ⟨TCL_ERROR, [ResultWrite.wrongNumArgs 1 notifyUsage], freshInterp⟩ ∧
    SysNotifyObjCmd sampleCollab freshInterp (words ["_sysnotify", "T", "M"]) =
      Except.ok ⟨TCL_OK, [],
        { info := none, trace := [Event.deliverNotification (some "T") (some "M")] }⟩ := by
  refine ⟨(C5_sysnotify_arg_count sampleCollab freshInterp (words ["_sysnotify", "T"])
      (by decide)).1 (by decide), ?_⟩
  obtain ⟨t, m, ht, hm, h⟩ :=
    (C5_sysnotify_arg_count sampleCollab freshInterp (words ["_sysnotify", "T", "M"])
      (by decide)).2 (by decide)
  have ht1 : t = ⟨101, "T"⟩ := (Option.some.inj ht).symm
  have hm1 : m = ⟨102, "M"⟩ := (Option.some.inj hm).symm
  subst ht1 hm1
  exact h

/-- C6, as stated, fails: on macOS 10.9, `_sysnotify` without arguments fails
with `TCL_ERROR` and the usage message, because `SysNotifyObjCmd` checks the
argument count before the system version. -/
theorem C6_old_system_counterexample :
    oldCollab.macOSVersion < 101000 ∧
    SysNotifyObjCmd oldCollab freshInterp (words ["_sysnotify"]) =
      Except.ok ⟨TCL_ERROR, [ResultWrite.wrongNumArgs 1 notifyUsage], freshInterp⟩ ∧
    TCL_ERROR ≠ TCL_OK := by
  refine ⟨by decide, rfl, by decide⟩

/-- C6 (amended): on a system older than macOS 10.10, `_systray` with any
argument list and in any handle state, and `_sysnotify` with at least two
arguments, return `TCL_OK` with their "not supported" message; `_sysnotify`
with fewer than two arguments fails with the usage error, its argument-count
check coming first.  In every case the interpreter is left as it was: no handle
is created or changed and no notification is posted. -/
theorem C6_old_system (c : Collab) (s : Interp) (objv : List Tcl_Obj)
    (hver : c.macOSVersion < 101000) :
    MacSystrayObjCmd c s objv =
      Except.ok ⟨TCL_OK, [ResultWrite.appendResult systrayUnsupported], s⟩ ∧
    (3 ≤ objv.length →
      SysNotifyObjCmd c s objv =
        Except.ok ⟨TCL_OK, [ResultWrite.appendResult sysnotifyUnsupported], s⟩) ∧
    (objv.length < 3 →
      SysNotifyObjCmd c s objv =
        Except.ok ⟨TCL_ERROR, [ResultWrite.wrongNumArgs 1 notifyUsage], s⟩) := by
  refine ⟨?_, ?_, ?_⟩
  · simp [MacSystrayObjCmd, hver, systrayUnsupported]
  · intro hge
    have h3 : ¬ (objv.length < 3) := by omega
    simp [SysNotifyObjCmd, hver, h3, sysnotifyUnsupported]
  · intro hlt
    simp [SysNotifyObjCmd, hlt, notifyUsage]

/-- C6 (amended) at concrete inputs on macOS 10.9: `_systray create icon tip`
on an interpreter that shows an icon, and `_sysnotify T M`. -/
theorem C6_old_system_witness :
    MacSystrayObjCmd oldCollab busyInterp (words ["_systray", "create", "icon", "tip"]) =
      Except.ok ⟨TCL_OK, [ResultWrite.appendResult systrayUnsupported], busyInterp⟩ ∧
    SysNotifyObjCmd oldCollab busyInterp (words ["_sysnotify", "T", "M"]) =
      Except.ok ⟨TCL_OK, [ResultWrite.appendResult sysnotifyUnsupported], busyInterp⟩ :=
  ⟨(C6_old_system oldCollab busyInterp (words ["_systray", "create", "icon", "tip"])
      (by decide)).1,
   (C6_old_system oldCollab busyInterp (words ["_sysnotify", "T", "M"])
      (by decide)).2.1 (by decide)⟩

/-- One call of `setB1Callback` keeps the balance between the trace and the slots. -/
theorem setB1Callback_balance (o : Tcl_Obj) (obj : Option Tcl_Obj) (h : TkStatusItem)
    (es : List Event) (hbal : refBalance o es = slotsHolding o h) :
    refBalance o (es ++ (h.setB1Callback obj).2) = slotsHolding o (h.setB1Callback obj).1 := by
  unfold refBalance retains releases slotsHolding at *
  rcases obj with _ | x <;> rcases hb : h.b1_callback with _ | y <;>
    simp [TkStatusItem.setB1Callback, hb, List.count_cons, List.count_append] at hbal ⊢ <;>
    split_ifs at hbal ⊢ <;> simp_all <;> omega

/-- One call of `setB3Callback` keeps the balance between the trace and the slots. -/
theorem setB3Callback_balance (o : Tcl_Obj) (obj : Option Tcl_Obj) (h : TkStatusItem)
    (es : List Event) (hbal : refBalance o es = slotsHolding o h) :
    refBalance o (es ++ (h.setB3Callback obj).2) = slotsHolding o (h.setB3Callback obj).1 := by
  unfold refBalance retains releases slotsHolding at *
  rcases obj with _ | x <;> rcases hb : h.b3_callback with _ | y <;>
    simp [TkStatusItem.setB3Callback, hb, List.count_cons, List.count_append] at hbal ⊢ <;>
    split_ifs at hbal ⊢ <;> simp_all <;> omega

/-- A sequence of setter calls keeps the balance. -/
theorem runSetters_balance (o : Tcl_Obj) (calls : List SetterCall) :
    ∀ st : TkStatusItem × List Event, refBalance o st.2 = slotsHolding o st.1 →
      refBalance o (runSetters calls st).2 = slotsHolding o (runSetters calls st).1 := by
  induction calls with
  | nil => intro st hst; simpa [runSetters] using hst
  | cons call rest ih =>
    intro st hst
    have hstep : refBalance o (runSetter st call).2 = slotsHolding o (runSetter st call).1 := by
      cases call with
      | setB1Callback obj => exact setB1Callback_balance o obj st.1 st.2 hst
      | setB3Callback obj => exact setB3Callback_balance o obj st.1 st.2 hst
    simpa [runSetters] using ih (runSetter st call) hstep

/-- C7: reference-count balance of the callback setters.  (1) After every
sequence of `setB1Callback` / `setB3Callback` calls on a new handle, the
retains minus the releases performed on an object `o` equal the number of
callback slots holding `o`.  (2) `setB1Callback(b)` on a handle that
`setB1Callback(a)` was just run on performs exactly the two calls
`Tcl_IncrRefCount(b)`, `Tcl_DecrRefCount(a)`, in this order, and stores `b`: one
release of `a` and one retain of `b`, also when `a` and `b` are the same
object.  (3) When `a` was not in the slot before, then during
`setB1Callback(a); setB1Callback(a)` the balance of `a` is at least one after
each reference-count call: it never returns to its value before registration. -/
theorem C7_callback_refcount_balance (calls : List SetterCall) (o : Tcl_Obj)
    (h : TkStatusItem) (a b : Tcl_Obj) :
    refBalance o (runSetters calls (TkStatusItem.init, [])).2 =
      slotsHolding o (runSetters calls (TkStatusItem.init, [])).1 ∧
    ((h.setB1Callback (some a)).1.setB1Callback (some b)).2 =
      [Event.incrRefCount b, Event.decrRefCount a] ∧
    ((h.setB1Callback (some a)).1.setB1Callback (some b)).1.b1_callback = some b ∧
    releases a ((h.setB1Callback (some a)).1.setB1Callback (some b)).2 = 1 ∧
    retains b ((h.setB1Callback (some a)).1.setB1Callback (some b)).2 = 1 ∧
    (h.b1_callback ≠ some a → ∀ n, 0 < n →
      1 ≤ refBalance a (((h.setB1Callback (some a)).2 ++
        ((h.setB1Callback (some a)).1.setB1Callback (some a)).2).take n)) := by
  refine ⟨?_, ?_, ?_, ?_, ?_, ?_⟩
  · apply runSetters_balance
    simp [refBalance, retains, releases, slotsHolding, TkStatusItem.init]
  · simp [TkStatusItem.setB1Callback]
  · simp [TkStatusItem.setB1Callback]
  · simp [TkStatusItem.setB1Callback, releases, List.count_cons]
  · simp [TkStatusItem.setB1Callback, retains, List.count_cons]
  · intro hne n hn
    rcases hb : h.b1_callback with _ | old
    · rcases n with _ | _ | _ | n
      · omega
      · simp [TkStatusItem.setB1Callback, hb, refBalance, retains, releases, List.count_cons]
      · simp [TkStatusItem.setB1Callback, hb, refBalance, retains, releases, List.count_cons]
      · simp [TkStatusItem.setB1Callback, hb, refBalance, retains, releases, List.count_cons]
    · have hold : old ≠ a := by
        intro he
        exact hne (by rw [hb, he])
      rcases n with _ | _ | _ | _ | n
      · omega
      · simp [TkStatusItem.setB1Callback, hb, refBalance, retains, releases, List.count_cons]
      · simp [TkStatusItem.setB1Callback, hb, refBalance, retains, releases, List.count_cons,
          hold]
      · simp [TkStatusItem.setB1Callback, hb, refBalance, retains, releases, List.count_cons,
          hold]
      · simp [TkStatusItem.setB1Callback, hb, refBalance, retains, releases, List.count_cons,
          hold]

/-- C7 at a concrete input: the calls `setB1Callback(x); setB3Callback(x);
setB1Callback(NULL)` on a new handle, and `setB1Callback(x); setB1Callback(x)`
on a handle holding another button-1 callback. -/
theorem C7_callback_refcount_balance_witness :
    refBalance ⟨1, "x"⟩ (runSetters
        [SetterCall.setB1Callback (some ⟨1, "x"⟩), SetterCall.setB3Callback (some ⟨1, "x"⟩),
         SetterCall.setB1Callback none] (TkStatusItem.init, [])).2 = 1 ∧
    1 ≤ refBalance ⟨1, "x"⟩
      ([Event.incrRefCount ⟨1, "x"⟩, Event.decrRefCount ⟨70, "puts seven"⟩,
        Event.incrRefCount ⟨1, "x"⟩, Event.decrRefCount ⟨1, "x"⟩].take 4) := by
  have key := C7_callback_refcount_balance
    [SetterCall.setB1Callback (some ⟨1, "x"⟩), SetterCall.setB3Callback (some ⟨1, "x"⟩),
     SetterCall.setB1Callback none] ⟨1, "x"⟩
    { icon := some ⟨7⟩, tooltip := some "seven",
      b1_callback := some ⟨70, "puts seven"⟩, b3_callback := none,
      button_image := some ⟨7⟩, button_toolTip := some "seven" } ⟨1, "x"⟩ ⟨1, "x"⟩
  refine ⟨?_, ?_⟩
  · rw [key.1]
    decide
  · exact key.2.2.2.2.2 (by decide) 4 (by decide)

/-- The state `destroy` leaves: a handle, if there is one, with every field
empty, and the release of each callback it held appended to the trace. -/
theorem trayDestroy_eq (s : Interp) :
    trayDestroy s = Except.ok ⟨TCL_OK, [],
      match s.info with
      | none => s
      | some h =>
        { info := some TkStatusItem.init,
          trace := s.trace ++
            ((match h.b1_callback with
              | some old => [Event.decrRefCount old]
              | none => []) ++
             (match h.b3_callback with
              | some old => [Event.decrRefCount old]
              | none => [])) }⟩ := by
  rcases s with ⟨_ | h, trace⟩
  · simp [trayDestroy, send]
  · simp [trayDestroy, send, TkStatusItem.init, TkStatusItem.setImagewithImage,
      TkStatusItem.setTextwithString, TkStatusItem.setB1Callback,
      TkStatusItem.setB3Callback]

/-- On a supported system `_systray destroy`, with any further arguments, runs
the case `TRAY_DESTROY`. -/
theorem MacSystrayObjCmd_destroy (c : Collab) (s : Interp) (objv : List Tcl_Obj)
    (verb : Tcl_Obj)
    (hver : ¬ (c.macOSVersion < 101000))
    (hverb : objv[1]? = some verb)
    (hdestroy : c.Tcl_GetIndexFromObj verb options = some 2) :
    MacSystrayObjCmd c s objv = trayDestroy s := by
  have hlen : ¬ (objv.length < 2) := by
    intro hlt
    have := List.getElem?_eq_none (l := objv) (n := 1) (by omega)
    simp [this] at hverb
  simp [MacSystrayObjCmd, hver, hlen, arg, hverb, hdestroy, bind, Except.bind]

/-- C8: on a supported system `_systray destroy` succeeds in every handle
state, also when the interpreter has no handle: it returns `TCL_OK`; a handle,
if there is one, has afterwards no icon, no tooltip and no callback (a missing
handle stays missing); and a second `destroy` returns `TCL_OK` again and leaves
exactly the state the first one left. -/
theorem C8_destroy_idempotent (c : Collab) (s : Interp) (objv objv2 : List Tcl_Obj)
    (verb verb2 : Tcl_Obj)
    (hver : ¬ (c.macOSVersion < 101000))
    (hverb : objv[1]? = some verb)
    (hdestroy : c.Tcl_GetIndexFromObj verb options = some 2)
    (hverb2 : objv2[1]? = some verb2)
    (hdestroy2 : c.Tcl_GetIndexFromObj verb2 options = some 2) :
    ∃ r, MacSystrayObjCmd c s objv = Except.ok r ∧ r.code = TCL_OK ∧ r.result = [] ∧
      (r.state.info = none ↔ s.info = none) ∧
      (∀ h, r.state.info = some h →
        h.icon = none ∧ h.tooltip = none ∧ h.b1_callback = none ∧ h.b3_callback = none ∧
        h.button_image = none ∧ h.button_toolTip = none) ∧
      MacSystrayObjCmd c r.state objv2 = Except.ok ⟨TCL_OK, [], r.state⟩ := by
  rw [MacSystrayObjCmd_destroy c s objv verb hver hverb hdestroy, trayDestroy_eq]
  refine ⟨_, rfl, rfl, rfl, ?_, ?_, ?_⟩
  · rcases s with ⟨_ | h, trace⟩ <;> simp
  · rcases s with ⟨_ | h, trace⟩
    · simp
    · intro h' hh'
      simp only [Option.some.injEq] at hh'
      subst hh'
      simp [TkStatusItem.init]
  · rw [MacSystrayObjCmd_destroy c _ objv2 verb2 hver hverb2 hdestroy2, trayDestroy_eq]
    rcases s with ⟨_ | h, trace⟩
    · simp
    · simp [TkStatusItem.init]

/-- C8 at a concrete input: `_systray destroy` twice on an interpreter that
shows an icon and holds a callback. -/
theorem C8_destroy_idempotent_witness :
    ∃ r, MacSystrayObjCmd sampleCollab busyInterp (words ["_systray", "destroy"]) =
        Except.ok r ∧ r.code = TCL_OK ∧ r.result = [] ∧
      (r.state.info = none ↔ busyInterp.info = none) ∧
      (∀ h, r.state.info = some h →
        h.icon = none ∧ h.tooltip = none ∧ h.b1_callback = none ∧ h.b3_callback = none ∧
        h.button_image = none ∧ h.button_toolTip = none) ∧
      MacSystrayObjCmd sampleCollab r.state (words ["_systray", "destroy"]) =
        Except.ok ⟨TCL_OK, [], r.state⟩ :=
  C8_destroy_idempotent sampleCollab busyInterp (words ["_systray", "destroy"])
    (words ["_systray", "destroy"]) ⟨101, "destroy"⟩ ⟨101, "destroy"⟩
    (by decide) rfl rfl rfl rfl

/-- On a supported system `_systray modify field value` runs the case
`TRAY_MODIFY`. -/
theorem MacSystrayObjCmd_modify (c : Collab) (s : Interp) (o0 verb field value : Tcl_Obj)
    (hver : ¬ (c.macOSVersion < 101000))
    (hmodify : c.Tcl_GetIndexFromObj verb options = some 1) :
    MacSystrayObjCmd c s [o0, verb, field, value] =
      trayModify c s [o0, verb, field, value] := by
  simp [MacSystrayObjCmd, hver, arg, hmodify, bind, Except.bind]

/-- The case `TRAY_MODIFY` for the field `image`. -/
theorem trayModify_image (c : Collab) (s : Interp) (o0 verb field value : Tcl_Obj)
    (hfield : c.Tcl_GetIndexFromObj field modifyOptions = some 0) :
    trayModify c s [o0, verb, field, value] =
      match c.Tk_GetImage value.str with
      | none =>
        Except.ok ⟨TCL_ERROR,
          [ResultWrite.leftByGetImage,
           ResultWrite.appendResult " unable to obtain image for systray icon"], s⟩
      | some img =>
        Except.ok ⟨TCL_OK, [],
          record [Event.freeImage img]
            (if (c.Tk_SizeOfImage img).1 ≠ 0 ∧ (c.Tk_SizeOfImage img).2 ≠ 0 then
              send (TkStatusItem.setImagewithImage
                (c.TkMacOSXGetNSImageFromTkImage img (c.Tk_SizeOfImage img).1
                  (c.Tk_SizeOfImage img).2)) s
            else s)⟩ := by
  rcases hi : c.Tk_GetImage value.str with _ | img <;>
    simp [trayModify, arg, hfield, hi, bind, Except.bind]

/-- The case `TRAY_MODIFY` for the field `text`. -/
theorem trayModify_text (c : Collab) (s : Interp) (o0 verb field value : Tcl_Obj)
    (hfield : c.Tcl_GetIndexFromObj field modifyOptions = some 1) :
    trayModify c s [o0, verb, field, value] =
      match c.stringWithUTF8String value.str with
      | none =>
        Except.ok ⟨TCL_ERROR,
          [ResultWrite.appendResult "unable to set tooltip for systray icon"], s⟩
      | some tip =>
        Except.ok ⟨TCL_OK, [], send (TkStatusItem.setTextwithString (some tip)) s⟩ := by
  rcases hi : c.stringWithUTF8String value.str with _ | tip <;>
    simp [trayModify, arg, hfield, hi, bind, Except.bind]

/-- The case `TRAY_MODIFY` for the field `b1_callback`. -/
theorem trayModify_b1 (c : Collab) (s : Interp) (o0 verb field value : Tcl_Obj)
    (hfield : c.Tcl_GetIndexFromObj field modifyOptions = some 2) :
    trayModify c s [o0, verb, field, value] =
      Except.ok ⟨TCL_OK, [], send (TkStatusItem.setB1Callback (some value)) s⟩ := by
  simp [trayModify, arg, hfield, bind, Except.bind]

/-- The case `TRAY_MODIFY` for the field `b3_callback`. -/
theorem trayModify_b3 (c : Collab) (s : Interp) (o0 verb field value : Tcl_Obj)
    (hfield : c.Tcl_GetIndexFromObj field modifyOptions = some 3) :
    trayModify c s [o0, verb, field, value] =
      Except.ok ⟨TCL_OK, [], send (TkStatusItem.setB3Callback (some value)) s⟩ := by
  simp [trayModify, arg, hfield, bind, Except.bind]

/-- C9: on a supported system and with an existing handle `h`, `_systray modify
field value` returns, a failing one leaves the interpreter as it was, and a
successful one changes only the named field: `modify image` leaves tooltip and
callbacks and sets the icon to the converted image (an image of zero width or
height leaves the icon too); `modify text v` sets the tooltip to the
conversion of `v` and leaves icon and callbacks; `modify b1_callback` and
`modify b3_callback` store `value` in their slot and leave the three other
fields.  Hence `modify image name` with an image that loads, followed by
`modify text ""`, both succeed, and end with the empty tooltip and with the
icon the first command left (the converted image when its size is not zero). -/
theorem C9_modify_changes_only_named_field (c : Collab) (s : Interp) (h : TkStatusItem)
    (o0 verb field value fimage name ftext empty : Tcl_Obj) (k : Nat) (img : Tk_Image)
    (hver : ¬ (c.macOSVersion < 101000))
    (hmodify : c.Tcl_GetIndexFromObj verb options = some 1)
    (hfield : c.Tcl_GetIndexFromObj field modifyOptions = some k)
    (hinfo : s.info = some h) :
    (∃ r, MacSystrayObjCmd c s [o0, verb, field, value] = Except.ok r ∧
      (r.code ≠ TCL_OK → r.state = s) ∧
      (r.code = TCL_OK → ∃ h2, r.state.info = some h2 ∧
        (k = 0 → h2.tooltip = h.tooltip ∧ h2.b1_callback = h.b1_callback ∧
          h2.b3_callback = h.b3_callback ∧
          ∃ im, c.Tk_GetImage value.str = some im ∧
            h2.icon = if (c.Tk_SizeOfImage im).1 ≠ 0 ∧ (c.Tk_SizeOfImage im).2 ≠ 0 then
              c.TkMacOSXGetNSImageFromTkImage im (c.Tk_SizeOfImage im).1
                (c.Tk_SizeOfImage im).2
            else h.icon) ∧
        (k = 1 → h2.tooltip = c.stringWithUTF8String value.str ∧ h2.tooltip ≠ none ∧
          h2.icon = h.icon ∧ h2.b1_callback = h.b1_callback ∧
          h2.b3_callback = h.b3_callback) ∧
        (k = 2 → h2.b1_callback = some value ∧ h2.icon = h.icon ∧
          h2.tooltip = h.tooltip ∧ h2.b3_callback = h.b3_callback) ∧
        (k = 3 → h2.b3_callback = some value ∧ h2.icon = h.icon ∧
          h2.tooltip = h.tooltip ∧ h2.b1_callback = h.b1_callback))) ∧
    (c.Tcl_GetIndexFromObj fimage modifyOptions = some 0 →
      c.Tcl_GetIndexFromObj ftext modifyOptions = some 1 →
      c.Tk_GetImage name.str = some img →
      empty.str = "" →
      c.stringWithUTF8String "" = some "" →
      ∃ r1 h1 r2 h2,
        MacSystrayObjCmd c s [o0, verb, fimage, name] = Except.ok r1 ∧ r1.code = TCL_OK ∧
        r1.state.info = some h1 ∧
        MacSystrayObjCmd c r1.state [o0, verb, ftext, empty] = Except.ok r2 ∧
        r2.code = TCL_OK ∧ r2.state.info = some h2 ∧
        h2.tooltip = some "" ∧ h2.icon = h1.icon ∧
        ((c.Tk_SizeOfImage img).1 ≠ 0 ∧ (c.Tk_SizeOfImage img).2 ≠ 0 →
          h2.icon = c.TkMacOSXGetNSImageFromTkImage img (c.Tk_SizeOfImage img).1
            (c.Tk_SizeOfImage img).2)) := by
  constructor
  · rw [MacSystrayObjCmd_modify c s o0 verb field value hver hmodify]
    rcases k with _ | _ | _ | _ | k
    · rw [trayModify_image c s o0 verb field value hfield]
      rcases hi : c.Tk_GetImage value.str with _ | im
      · exact ⟨_, rfl, fun _ => rfl, fun hc => absurd hc (show ¬ ((1 : Int) = 0) by decide)⟩
      · refine ⟨_, rfl, fun hc => absurd rfl hc, fun _ => ?_⟩
        by_cases hz : (c.Tk_SizeOfImage im).1 ≠ 0 ∧ (c.Tk_SizeOfImage im).2 ≠ 0
        · simp [hz, record, send, hinfo, TkStatusItem.setImagewithImage]
        · simp [hz, record, send, hinfo, TkStatusItem.setImagewithImage]
    · rw [trayModify_text c s o0 verb field value hfield]
      rcases hi : c.stringWithUTF8String value.str with _ | tip
      · exact ⟨_, rfl, fun _ => rfl, fun hc => absurd hc (show ¬ ((1 : Int) = 0) by decide)⟩
      · refine ⟨_, rfl, fun hc => absurd rfl hc, fun _ => ?_⟩
        simp [send, hinfo, TkStatusItem.setTextwithString]
    · rw [trayModify_b1 c s o0 verb field value hfield]
      refine ⟨_, rfl, fun hc => absurd rfl hc, fun _ => ?_⟩
      simp [send, hinfo, TkStatusItem.setB1Callback]
    · rw [trayModify_b3 c s o0 verb field value hfield]
      refine ⟨_, rfl, fun hc => absurd rfl hc, fun _ => ?_⟩
      simp [send, hinfo, TkStatusItem.setB3Callback]
    · refine ⟨⟨TCL_OK, [], s⟩, ?_, fun hc => absurd rfl hc, fun _ => ⟨h, hinfo, ?_⟩⟩
      · simp [trayModify, arg, hfield, bind, Except.bind]
      · simp
  · intro hfi hft hname hempty hconv
    rw [MacSystrayObjCmd_modify c s o0 verb fimage name hver hmodify,
      trayModify_image c s o0 verb fimage name hfi, hname]
    by_cases hz : (c.Tk_SizeOfImage img).1 ≠ 0 ∧ (c.Tk_SizeOfImage img).2 ≠ 0
    · refine ⟨_, (TkStatusItem.setImagewithImage
          (c.TkMacOSXGetNSImageFromTkImage img (c.Tk_SizeOfImage img).1
            (c.Tk_SizeOfImage img).2) h).1, ?_, ?_, rfl, rfl, ?_, ?_⟩
      · exact ⟨TCL_OK, [], send (TkStatusItem.setTextwithString (some ""))
          (record [Event.freeImage img] (send (TkStatusItem.setImagewithImage
            (c.TkMacOSXGetNSImageFromTkImage img (c.Tk_SizeOfImage img).1
              (c.Tk_SizeOfImage img).2)) s))⟩
      · exact (TkStatusItem.setTextwithString (some "") (TkStatusItem.setImagewithImage
          (c.TkMacOSXGetNSImageFromTkImage img (c.Tk_SizeOfImage img).1
            (c.Tk_SizeOfImage img).2) h).1).1
      · simp [hz, record, send, hinfo]
      · rw [MacSystrayObjCmd_modify c _ o0 verb ftext empty hver hmodify,
          trayModify_text c _ o0 verb ftext empty hft, hempty, hconv]
        simp [hz, record, send, hinfo, TkStatusItem.setTextwithString,
          TkStatusItem.setImagewithImage]
    · refine ⟨_, h, ?_, ?_, rfl, rfl, ?_, ?_⟩
      · exact ⟨TCL_OK, [], send (TkStatusItem.setTextwithString (some ""))
          (record [Event.freeImage img] s)⟩
      · exact (TkStatusItem.setTextwithString (some "") h).1
      · simp [hz, record, hinfo]
      · rw [MacSystrayObjCmd_modify c _ o0 verb ftext empty hver hmodify,
          trayModify_text c _ o0 verb ftext empty hft, hempty, hconv]
        simp [hz, record, send, hinfo, TkStatusItem.setTextwithString]

/-- C9 at a concrete input: on an interpreter that shows icon 7 with the
tooltip `seven`, `_systray modify text hello` succeeds and changes the tooltip
only, and `_systray modify image icon` followed by `_systray modify text ""`
ends with the empty tooltip and the converted image `icon`. -/
theorem C9_modify_changes_only_named_field_witness :
    (∃ r h2, MacSystrayObjCmd sampleCollab busyInterp
        [⟨100, "_systray"⟩, ⟨101, "modify"⟩, ⟨102, "text"⟩, ⟨103, "hello"⟩] = Except.ok r ∧
      r.state.info = some h2 ∧ h2.tooltip = some "hello" ∧ h2.icon = some ⟨7⟩ ∧
      h2.b1_callback = some ⟨70, "puts seven"⟩ ∧ h2.b3_callback = none) ∧
    (∃ r1 h1 r2 h2,
      MacSystrayObjCmd sampleCollab busyInterp
        [⟨100, "_systray"⟩, ⟨101, "modify"⟩, ⟨102, "image"⟩, ⟨103, "icon"⟩] = Except.ok r1 ∧
      r1.state.info = some h1 ∧
      MacSystrayObjCmd sampleCollab r1.state
        [⟨100, "_systray"⟩, ⟨101, "modify"⟩, ⟨102, "text"⟩, ⟨103, ""⟩] = Except.ok r2 ∧
      r2.code = TCL_OK ∧ r2.state.info = some h2 ∧
      h2.tooltip = some "" ∧ h2.icon = some ⟨1⟩) := by
  have key := C9_modify_changes_only_named_field sampleCollab busyInterp
    { icon := some ⟨7⟩, tooltip := some "seven",
      b1_callback := some ⟨70, "puts seven"⟩, b3_callback := none,
      button_image := some ⟨7⟩, button_toolTip := some "seven" }
    ⟨100, "_systray"⟩ ⟨101, "modify"⟩ ⟨102, "text"⟩ ⟨103, "hello"⟩
    ⟨102, "image"⟩ ⟨103, "icon"⟩ ⟨102, "text"⟩ ⟨103, ""⟩ 1 ⟨1⟩
    (by decide) rfl rfl rfl
  constructor
  · obtain ⟨r, hr, _, hok⟩ := key.1
    have hcode : r.code = TCL_OK := by
      have hr2 : MacSystrayObjCmd sampleCollab busyInterp
          [⟨100, "_systray"⟩, ⟨101, "modify"⟩, ⟨102, "text"⟩, ⟨103, "hello"⟩] =
          Except.ok ⟨TCL_OK, [], send (TkStatusItem.setTextwithString (some "hello"))
            busyInterp⟩ := rfl
      rw [hr2] at hr
      rw [← Except.ok.inj hr]
    obtain ⟨h2, hinfo, _, htext, _, _⟩ := hok hcode
    obtain ⟨ht, _, hi, hb1, hb3⟩ := htext rfl
    exact ⟨r, h2, hr, hinfo, ht, hi, hb1, hb3⟩
  · obtain ⟨r1, h1, r2, h2, e1, _, i1, e2, c2, i2, ht, _, hicon⟩ := key.2 rfl rfl rfl rfl rfl
    exact ⟨r1, h1, r2, h2, e1, i1, e2, c2, i2, ht, hicon (by decide)⟩

/-- C10: click dispatch of `clickOnStatusItem`, for every handle, interpreter
state and event type.  (1) A callback `cb` is evaluated exactly when the event
is a left-mouse-up and `cb` is the stored button-1 callback, or the event is a
right-mouse-up and `cb` is the stored button-3 callback.  (2) At most one
callback is evaluated.  (3) A background error with code `code` is reported
exactly when a callback was evaluated and returned `code`, different from
`TCL_OK`.  (4) The method makes no other calls.  (5) The interpreter afterwards
is the one the evaluated callback returned, and the unchanged one when no
callback was evaluated: the dispatch itself writes no field of the handle. -/
theorem C10_click_dispatch (c : Collab) (ev : NSEventType) (self : TkStatusItem)
    (s : Interp) :
    (∀ cb, Event.evalObjEx cb ∈ (self.clickOnStatusItem c ev s).2 ↔
      (ev = NSEventType.LeftMouseUp ∧ self.b1_callback = some cb) ∨
      (ev = NSEventType.RightMouseUp ∧ self.b3_callback = some cb)) ∧
    (self.clickOnStatusItem c ev s).2.countP Event.isEval ≤ 1 ∧
    (∀ code, Event.backgroundException code ∈ (self.clickOnStatusItem c ev s).2 ↔
      code ≠ TCL_OK ∧ ∃ cb, Event.evalObjEx cb ∈ (self.clickOnStatusItem c ev s).2 ∧
        (c.Tcl_EvalObjEx cb s).1 = code) ∧
    (∀ e ∈ (self.clickOnStatusItem c ev s).2,
      (∃ cb, e = Event.evalObjEx cb) ∨ (∃ code, e = Event.backgroundException code)) ∧
    (∀ cb, Event.evalObjEx cb ∈ (self.clickOnStatusItem c ev s).2 →
      (self.clickOnStatusItem c ev s).1 = (c.Tcl_EvalObjEx cb s).2) ∧
    ((∀ cb, Event.evalObjEx cb ∉ (self.clickOnStatusItem c ev s).2) →
      self.clickOnStatusItem c ev s = (s, [])) := by
  rcases ev with _ | _ | n <;> rcases hb1 : self.b1_callback with _ | b1 <;>
    rcases hb3 : self.b3_callback with _ | b3 <;>
    simp [TkStatusItem.clickOnStatusItem, hb1, hb3] <;>
    split_ifs <;> simp_all [Event.isEval] <;> aesop

/-- A message to the status item keeps the slot `*info` occupied. -/
theorem send_info_ne_none (m : TkStatusItem → TkStatusItem × List Event) (s : Interp)
    (hs : s.info ≠ none) : (send m s).info ≠ none := by
  rcases s with ⟨_ | h, trace⟩
  · exact absurd rfl hs
  · simp [send]

/-- Recording calls does not touch the slot `*info`. -/
theorem record_info (es : List Event) (s : Interp) : (record es s).info = s.info := rfl

/-- The case `TRAY_CREATE` on an interpreter that has a status item: the
command fails and changes nothing. -/
theorem trayCreate_with_handle (c : Collab) (s : Interp) (objv : List Tcl_Obj)
    (h : TkStatusItem) (hinfo : s.info = some h) :
    trayCreate c s objv =
      Except.ok ⟨TCL_ERROR,
        [if 3 ≤ objv.length ∧ objv.length ≤ 6 then
          ResultWrite.appendResult duplicateIconMessage
        else ResultWrite.wrongNumArgs 1 createUsage], s⟩ := by
  by_cases hc : objv.length < 3 ∨ objv.length > 6
  · have hn : ¬ (3 ≤ objv.length ∧ objv.length ≤ 6) := by omega
    simp [trayCreate, hc, hn, createUsage]
  · have hn : 3 ≤ objv.length ∧ objv.length ≤ 6 := by omega
    simp [trayCreate, hc, hn, hinfo, duplicateIconMessage]

/-- The case `TRAY_MODIFY` on an interpreter that has a status item returns and
keeps the slot occupied. -/
theorem trayModify_keeps_handle (c : Collab) (s : Interp) (objv : List Tcl_Obj)
    (hs : s.info ≠ none) :
    ∃ r, trayModify c s objv = Except.ok r ∧ r.state.info ≠ none := by
  by_cases hlen : objv.length = 4
  · rcases objv with _ | ⟨o0, _ | ⟨o1, _ | ⟨o2, _ | ⟨o3, _ | ⟨o4, rest⟩⟩⟩⟩⟩ <;>
      simp at hlen
    rcases hf : c.Tcl_GetIndexFromObj o2 modifyOptions with _ | _ | _ | _ | _ | k
    · exact ⟨⟨TCL_ERROR, [ResultWrite.leftByGetIndex], s⟩,
        by simp [trayModify, arg, hf, bind, Except.bind], hs⟩
    · rw [trayModify_image c s o0 o1 o2 o3 hf]
      rcases c.Tk_GetImage o3.str with _ | img
      · exact ⟨_, rfl, hs⟩
      · refine ⟨_, rfl, ?_⟩
        rw [record_info]
        split_ifs
        · exact send_info_ne_none _ s hs
        · exact hs
    · rw [trayModify_text c s o0 o1 o2 o3 hf]
      rcases c.stringWithUTF8String o3.str with _ | tip
      · exact ⟨_, rfl, hs⟩
      · exact ⟨_, rfl, send_info_ne_none _ s hs⟩
    · rw [trayModify_b1 c s o0 o1 o2 o3 hf]
      exact ⟨_, rfl, send_info_ne_none _ s hs⟩
    · rw [trayModify_b3 c s o0 o1 o2 o3 hf]
      exact ⟨_, rfl, send_info_ne_none _ s hs⟩
    · exact ⟨⟨TCL_OK, [], s⟩, by simp [trayModify, arg, hf, bind, Except.bind], hs⟩
  · exact ⟨⟨TCL_ERROR, [ResultWrite.wrongNumArgs 1 "modify object item"], s⟩,
      by simp [trayModify, hlen], hs⟩

/-- The case `TRAY_DESTROY` keeps the slot occupied. -/
theorem trayDestroy_keeps_handle (s : Interp) (hs : s.info ≠ none) :
    ∃ r, trayDestroy s = Except.ok r ∧ r.state.info ≠ none := by
  refine ⟨_, rfl, ?_⟩
  exact send_info_ne_none _ _ (send_info_ne_none _ _ (send_info_ne_none _ _
    (send_info_ne_none _ _ hs)))

/-- No `_systray` invocation clears an occupied slot: on an interpreter that
has a status item, every invocation (any words, any system version) returns,
and the interpreter has a status item afterwards. -/
theorem MacSystrayObjCmd_keeps_handle (c : Collab) (s : Interp) (objv : List Tcl_Obj)
    (hs : s.info ≠ none) :
    ∃ r, MacSystrayObjCmd c s objv = Except.ok r ∧ r.state.info ≠ none := by
  by_cases hver : c.macOSVersion < 101000
  · exact ⟨⟨TCL_OK, [ResultWrite.appendResult systrayUnsupported], s⟩,
      by simp [MacSystrayObjCmd, hver, systrayUnsupported], hs⟩
  · by_cases hlen : objv.length < 2
    · exact ⟨⟨TCL_ERROR, [ResultWrite.wrongNumArgs 1 "create | modify | destroy"], s⟩,
        by simp [MacSystrayObjCmd, hver, hlen], hs⟩
    · rcases objv with _ | ⟨o0, _ | ⟨o1, rest⟩⟩
      · simp at hlen
      · simp at hlen
      · have h2 : ¬ (rest.length + 1 + 1 < 2) := by omega
        rcases hv : c.Tcl_GetIndexFromObj o1 options with _ | _ | _ | _ | k
        · exact ⟨⟨TCL_ERROR, [ResultWrite.leftByGetIndex], s⟩,
            by simp [MacSystrayObjCmd, hver, arg, hv, bind, Except.bind], hs⟩
        · obtain ⟨h, hh⟩ := Option.ne_none_iff_exists'.mp hs
          have hrun : MacSystrayObjCmd c s (o0 :: o1 :: rest) =
              trayCreate c s (o0 :: o1 :: rest) := by
            simp [MacSystrayObjCmd, hver, arg, hv, bind, Except.bind, h2]
          rw [hrun, trayCreate_with_handle c s (o0 :: o1 :: rest) h hh]
          exact ⟨_, rfl, hs⟩
        · obtain ⟨r, hr, hi⟩ := trayModify_keeps_handle c s (o0 :: o1 :: rest) hs
          exact ⟨r, by simp [MacSystrayObjCmd, hver, arg, hv, bind, Except.bind, hr], hi⟩
        · obtain ⟨r, hr, hi⟩ := trayDestroy_keeps_handle s hs
          exact ⟨r, by simp [MacSystrayObjCmd, hver, arg, hv, bind, Except.bind, hr], hi⟩
        · exact ⟨⟨TCL_OK, [], s⟩,
            by simp [MacSystrayObjCmd, hver, arg, hv, bind, Except.bind], hs⟩

/-- No sequence of `_systray` invocations clears an occupied slot. -/
theorem runSystray_keeps_handle (c : Collab) (cmds : List (List Tcl_Obj)) :
    ∀ s : Interp, s.info ≠ none →
      ∃ s2, runSystray c cmds s = Except.ok s2 ∧ s2.info ≠ none := by
  induction cmds with
  | nil => intro s hs; exact ⟨s, rfl, hs⟩
  | cons objv rest ih =>
    intro s hs
    obtain ⟨r, hr, hi⟩ := MacSystrayObjCmd_keeps_handle c s objv hs
    obtain ⟨s2, h2, hi2⟩ := ih r.state hi
    exact ⟨s2, by simp [runSystray, hr, h2], hi2⟩

/-- The case `TRAY_CREATE` with an accepted argument count on an interpreter
without a status item: whenever it returns, with whatever completion code, the
slot `*info` is occupied. -/
theorem trayCreate_fills_slot (c : Collab) (s : Interp) (objv : List Tcl_Obj)
    (r : CmdResult)
    (hlen3 : 3 ≤ objv.length) (hlen6 : objv.length ≤ 6)
    (hinfo : s.info = none)
    (hret : trayCreate c s objv = Except.ok r) :
    r.state.info ≠ none := by
  have hc : ¬ (objv.length < 3 ∨ objv.length > 6) := by omega
  have hinit : ({ info := some TkStatusItem.init, trace := s.trace } : Interp).info ≠ none := by
    simp
  unfold trayCreate at hret
  simp only [hc, if_false, hinfo] at hret
  rcases ha2 : arg objv 2 with f | name
  · simp [ha2, bind, Except.bind] at hret
  · simp only [ha2, bind, Except.bind] at hret
    rcases hi : c.Tk_GetImage name.str with _ | img
    · simp only [hi] at hret
      rw [← Except.ok.inj hret]
      exact hinit
    · simp only [hi] at hret
      have hs1 : (if (c.Tk_SizeOfImage img).1 ≠ 0 ∧ (c.Tk_SizeOfImage img).2 ≠ 0 then
            record [Event.freeImage img] (send (TkStatusItem.setImagewithImage
              (c.TkMacOSXGetNSImageFromTkImage img (c.Tk_SizeOfImage img).1
                (c.Tk_SizeOfImage img).2))
              { info := some TkStatusItem.init, trace := s.trace })
          else ({ info := some TkStatusItem.init, trace := s.trace } : Interp)).info
          ≠ none := by
        split_ifs
        · rw [record_info]
          exact send_info_ne_none _ _ hinit
        · exact hinit
      rcases ha3 : arg objv 3 with f | text
      · simp [ha3] at hret
      · simp only [ha3] at hret
        rcases ht : c.stringWithUTF8String text.str with _ | tip
        · simp only [ht] at hret
          rw [← Except.ok.inj hret]
          exact hs1
        · simp only [ht] at hret
          split_ifs at hret
          all_goals (repeat' split at hret)
          all_goals first
            | (cases hret; done)
            | (rw [← Except.ok.inj hret]
               refine send_info_ne_none _ _ (send_info_ne_none _ _
                 (send_info_ne_none _ _ ?_))
               first
                 | exact hinit
                 | (rw [record_info]; exact send_info_ne_none _ _ hinit))

/-- The case `TRAY_CREATE` returns whenever the image name and the tooltip text
are both given (`objc >= 4`). -/
theorem trayCreate_returns (c : Collab) (s : Interp) (objv : List Tcl_Obj)
    (hlen4 : 4 ≤ objv.length) :
    ∃ r, trayCreate c s objv = Except.ok r := by
  rcases objv with _ | ⟨o0, _ | ⟨o1, _ | ⟨o2, _ | ⟨o3, rest⟩⟩⟩⟩
  · simp at hlen4
  · simp at hlen4
  · simp at hlen4
  · simp at hlen4
  · rcases rest with _ | ⟨o4, _ | ⟨o5, rest⟩⟩ <;>
      simp only [trayCreate, arg, bind, Except.bind, Except.map, List.length_cons,
        List.length_nil, List.getElem?_cons_succ, List.getElem?_cons_zero] <;>
      (repeat' split) <;>
      first
        | exact ⟨_, rfl⟩
        | omega

/-- On a supported system `_systray create ...` runs the case `TRAY_CREATE`. -/
theorem MacSystrayObjCmd_create (c : Collab) (s : Interp) (objv : List Tcl_Obj)
    (verb : Tcl_Obj)
    (hver : ¬ (c.macOSVersion < 101000))
    (hverb : objv[1]? = some verb)
    (hcreate : c.Tcl_GetIndexFromObj verb options = some 0) :
    MacSystrayObjCmd c s objv = trayCreate c s objv := by
  have hlen : ¬ (objv.length < 2) := by
    intro hlt
    have := List.getElem?_eq_none (l := objv) (n := 1) (by omega)
    simp [this] at hverb
  simp [MacSystrayObjCmd, hver, hlen, arg, hverb, hcreate, bind, Except.bind]

/-- C11, as stated, fails in two places.  After `_systray create icon tip` and
`_systray destroy` on a fresh interpreter, a later `_systray create` with no
further word fails, but with the usage message of the argument-count check, not
with the duplicate-icon message.  And on macOS 10.9 a `_systray create icon tip`
on an interpreter without a status item returns with the slot still empty. -/
theorem C11_slot_never_cleared_counterexample :
    runSystray sampleCollab
        [words ["_systray", "create", "icon", "tip"], words ["_systray", "destroy"]]
        freshInterp =
      Except.ok { info := some TkStatusItem.init, trace := [Event.freeImage ⟨1⟩] } ∧
    sampleCollab.Tcl_GetIndexFromObj ⟨101, "create"⟩ options = some 0 ∧
    MacSystrayObjCmd sampleCollab
        { info := some TkStatusItem.init, trace := [Event.freeImage ⟨1⟩] }
        (words ["_systray", "create"]) =
      Except.ok ⟨TCL_ERROR, [ResultWrite.wrongNumArgs 1 createUsage],
        { info := some TkStatusItem.init, trace := [Event.freeImage ⟨1⟩] }⟩ ∧
    ResultWrite.wrongNumArgs 1 createUsage ≠ ResultWrite.appendResult duplicateIconMessage ∧
    (words ["_systray", "create", "icon", "tip"]).length = 4 ∧
    MacSystrayObjCmd oldCollab freshInterp (words ["_systray", "create", "icon", "tip"]) =
      Except.ok ⟨TCL_OK, [ResultWrite.appendResult systrayUnsupported], freshInterp⟩ ∧
    freshInterp.info = none := by
  refine ⟨rfl, rfl, rfl, by decide, rfl, rfl, rfl⟩

/-- C11 (amended): on a supported system no `_systray` command clears the
handle slot.  A `create` with an accepted argument count on an interpreter
without a status item returns whenever the tooltip text is given (`objc >= 4`);
once it has returned, with success or with an error, the slot is occupied.  It
is still occupied after every later sequence of `_systray` invocations
(`create`, `modify`, `destroy` or anything else), each of which returns, and
every later `create` fails with `TCL_ERROR` and changes nothing: with the
duplicate-icon message when its argument count is accepted, with the usage
message otherwise. -/
theorem C11_slot_never_cleared (c : Collab) (s : Interp) (first again : List Tcl_Obj)
    (later : List (List Tcl_Obj)) (verb verb2 : Tcl_Obj)
    (hver : ¬ (c.macOSVersion < 101000))
    (hverb : first[1]? = some verb)
    (hcreate : c.Tcl_GetIndexFromObj verb options = some 0)
    (hlen3 : 3 ≤ first.length) (hlen6 : first.length ≤ 6)
    (hinfo : s.info = none)
    (hverb2 : again[1]? = some verb2)
    (hcreate2 : c.Tcl_GetIndexFromObj verb2 options = some 0) :
    (4 ≤ first.length → ∃ r, MacSystrayObjCmd c s first = Except.ok r) ∧
    (∀ r, MacSystrayObjCmd c s first = Except.ok r →
      r.state.info ≠ none ∧
      ∃ s2, runSystray c later r.state = Except.ok s2 ∧ s2.info ≠ none ∧
        MacSystrayObjCmd c s2 again =
          Except.ok ⟨TCL_ERROR,
            [if 3 ≤ again.length ∧ again.length ≤ 6 then
              ResultWrite.appendResult duplicateIconMessage
            else ResultWrite.wrongNumArgs 1 createUsage], s2⟩) := by
  rw [MacSystrayObjCmd_create c s first verb hver hverb hcreate]
  refine ⟨fun h4 => trayCreate_returns c s first h4, fun r hr => ?_⟩
  have hfull : r.state.info ≠ none := trayCreate_fills_slot c s first r hlen3 hlen6 hinfo hr
  obtain ⟨s2, hrun, hs2⟩ := runSystray_keeps_handle c later r.state hfull
  obtain ⟨h2, hh2⟩ := Option.ne_none_iff_exists'.mp hs2
  refine ⟨hfull, s2, hrun, hs2, ?_⟩
  rw [MacSystrayObjCmd_create c s2 again verb2 hver hverb2 hcreate2,
    trayCreate_with_handle c s2 again h2 hh2]

/-- C11 (amended) at a concrete input: `_systray create icon tip cb1`, then
`_systray modify text hello` and `_systray destroy`, then `_systray create icon
tip` again, on a fresh interpreter. -/
theorem C11_slot_never_cleared_witness :
    ∃ r s2,
      MacSystrayObjCmd sampleCollab freshInterp
        (words ["_systray", "create", "icon", "tip", "cb1"]) = Except.ok r ∧
      r.state.info ≠ none ∧
      runSystray sampleCollab
        [words ["_systray", "modify", "text", "hello"], words ["_systray", "destroy"]]
        r.state = Except.ok s2 ∧
      s2.info ≠ none ∧
      MacSystrayObjCmd sampleCollab s2 (words ["_systray", "create", "icon", "tip"]) =
        Except.ok ⟨TCL_ERROR, [ResultWrite.appendResult duplicateIconMessage], s2⟩ := by
  have key := C11_slot_never_cleared sampleCollab freshInterp
    (words ["_systray", "create", "icon", "tip", "cb1"])
    (words ["_systray", "create", "icon", "tip"])
    [words ["_systray", "modify", "text", "hello"], words ["_systray", "destroy"]]
    ⟨101, "create"⟩ ⟨101, "create"⟩
    (by decide) rfl rfl (by decide) (by decide) rfl rfl rfl
  obtain ⟨r, hr⟩ := key.1 (by decide)
  obtain ⟨hfull, s2, hrun, hs2, hagain⟩ := key.2 r hr
  exact ⟨r, s2, hr, hfull, hrun, hs2, hagain⟩

end TkMacOSXSysTray
